import Mathlib

/-!
Verification of the scroll-driven particle-morphing core of the `my-site`
repository (two source variants: `src/src/App.js`, four-zone, and
`src/unnamed/part_000`, three-zone).  All scalar arithmetic of the source is
modelled over `ℚ`; `Math.random()` values are modelled as an explicit input
stream of rationals in `[0,1)`.
-/

namespace MySite

/-- `THREE.MathUtils.lerp(x, y, t) = (1 - t) * x + t * y`. -/
def lerp (x y t : ℚ) : ℚ := (1 - t) * x + t * y

/-- `THREE.MathUtils.clamp(value, min, max) = Math.max(min, Math.min(max, value))`. -/
def clamp (value lo hi : ℚ) : ℚ := max lo (min hi value)

/-- `ROTATION_CONFIG.friction` (both variants). -/
def friction : ℚ := 98/100

/-- `ROTATION_CONFIG.clickForce` (both variants). -/
def clickForce : ℚ := 5/100

/-- `ROTATION_CONFIG.maxVelocity` (both variants). -/
def maxVelocity : ℚ := 15/100

/-- The shared rotation-velocity state `rotationVelocity.current = { x, y }`. -/
structure Vec2 where
  x : ℚ
  y : ℚ
deriving DecidableEq, Repr

/-- The zone labels reported to the UI. -/
inductive Zone where
  | cloud
  | model
  | cube
  | blank
deriving DecidableEq, Repr

/-- Position of a zone in the configured ordering cloud → model → cube → blank. -/
def Zone.idx : Zone → ℕ
  | .cloud => 0
  | .model => 1
  | .cube => 2
  | .blank => 3

/-- Zone classifier of `part_000` (`useFrame`, lines 129-138): thresholds 0.2 and
0.6; `p < 0.2` is cloud, `0.2 ≤ p ≤ 0.6` is model, everything else cube. -/
def newZone3 (p : ℚ) : Zone :=
  if p < 2/10 then .cloud
  else if 2/10 ≤ p ∧ p ≤ 6/10 then .model
  else .cube

/-- Zone classifier of `App.js` (`useFrame`, lines 146-150): starts at cloud and
overrides with blank above 0.55, cube above 0.30, model above 0.15. -/
def newZone4 (p : ℚ) : Zone :=
  if p > 55/100 then .blank
  else if p > 30/100 then .cube
  else if p > 15/100 then .model
  else .cloud

/-- Per-coordinate blend target of `part_000` (lines 141-155): three segments
over progress, each local factor clamped to `[0,1]` before the lerp. -/
def targetPos0 (cloud model cube p : ℚ) : ℚ :=
  if p ≤ 33/100 then lerp cloud model (clamp (p * 3) 0 1)
  else if p ≤ 66/100 then lerp model cube (clamp ((p - 33/100) * 3) 0 1)
  else cube

/-- Per-coordinate blend target of `App.js` (lines 152-165): the first two
segments use raw, unclamped local factors; only the final segment clamps. -/
def targetApp (cloud model cube p : ℚ) : ℚ :=
  if p ≤ 0 then lerp cloud model (p * 4)
  else if p ≤ 35/100 then lerp model cube ((p - 25/100) * 5)
  else if p ≤ 85/100 then cube
  else cube + clamp ((p - 85/100) * (667/100)) 0 1 * 20

/-- One relaxation tick of a live coordinate toward its target
(`pos[i] += (target - pos[i]) * 0.1`, line 158 of `part_000`, line 166 of
`App.js`). -/
def morphStep (target pos : ℚ) : ℚ := pos + (target - pos) * (1/10)

/-- `k` consecutive relaxation ticks under a constant target. -/
def morphIter (target pos : ℚ) (k : ℕ) : ℚ := (morphStep target)^[k] pos

section ZoneTheorems

/-- C4: in the three-zone configuration of `part_000` with thresholds
`[0.2, 0.6]`, the classifier maps 0.1 to cloud, 0.2 and 0.6 to model, and
0.61 to cube. -/
theorem zone3_scenario :
    newZone3 (1/10) = .cloud ∧ newZone3 (2/10) = .model ∧
    newZone3 (6/10) = .model ∧ newZone3 (61/100) = .cube := by
  refine ⟨?_, ?_, ?_, ?_⟩ <;> norm_num [newZone3]

/-- C9: in the four-zone variant of `App.js` the classifier assigns each exact
threshold value to the earlier zone: cloud for `p ≤ 0.15`, model for
`0.15 < p ≤ 0.30`, cube for `0.30 < p ≤ 0.55`, blank for `p > 0.55`. -/
theorem zone4_boundaries :
    (∀ p : ℚ,
      (p ≤ 15/100 → newZone4 p = .cloud) ∧
      (15/100 < p → p ≤ 30/100 → newZone4 p = .model) ∧
      (30/100 < p → p ≤ 55/100 → newZone4 p = .cube) ∧
      (55/100 < p → newZone4 p = .blank)) ∧
    newZone4 (15/100) = .cloud ∧ newZone4 (30/100) = .model ∧
    newZone4 (55/100) = .cube := by
  refine ⟨fun p => ⟨?_, ?_, ?_, ?_⟩, ?_, ?_, ?_⟩ <;>
    (intros; simp only [newZone4]; split_ifs <;> first | rfl | linarith)

/-- Witness for C9: the characterization applied at progress 0.1. -/
theorem zone4_boundaries_witness : newZone4 (1/10) = .cloud :=
  (zone4_boundaries.1 (1/10)).1 (by norm_num)

end ZoneTheorems

section MorphTheorems

/-- After one relaxation tick the remaining error is 9/10 of what it was. -/
theorem morphStep_error (target pos : ℚ) :
    target - morphStep target pos = (target - pos) * (9/10) := by
  simp only [morphStep]; ring

/-- Closed form of the error after `k` ticks under a constant target. -/
theorem morphIter_error (target pos : ℚ) (k : ℕ) :
    target - morphIter target pos k = (target - pos) * (9/10) ^ k := by
  induction k with
  | zero => simp [morphIter]
  | succ n ih =>
      simp only [morphIter, Function.iterate_succ_apply'] at *
      rw [morphStep_error, ih]; ring

/-- C3: each tick moves every live coordinate by one tenth of the remaining
difference; under a constant target the per-axis error after `k` ticks equals
the initial error times `(9/10)^k`, is non-increasing in `k`, and in the
concrete scenario (start 0, target 10) the live value is 1 after one tick and
1.9 after two. -/
theorem morph_convergence :
    (∀ target pos : ℚ, morphStep target pos = pos + (target - pos) * (1/10)) ∧
    (∀ target pos : ℚ, ∀ k : ℕ,
      |morphIter target pos k - target| = |pos - target| * (9/10) ^ k) ∧
    (∀ target pos : ℚ, ∀ k : ℕ,
      |morphIter target pos (k+1) - target| ≤ |morphIter target pos k - target|) ∧
    morphIter 10 0 1 = 1 ∧ morphIter 10 0 2 = 19/10 := by
  have herr : ∀ target pos : ℚ, ∀ k : ℕ,
      |morphIter target pos k - target| = |pos - target| * (9/10) ^ k := by
    intro target pos k
    have h := morphIter_error target pos k
    have h2 : morphIter target pos k - target = (pos - target) * (9/10) ^ k := by
      linarith
    rw [h2, abs_mul, abs_pow]
    have h9 : |(9:ℚ)/10| = 9/10 := by norm_num
    rw [h9]
  refine ⟨fun _ _ => rfl, herr, ?_, ?_, ?_⟩
  · intro target pos k
    rw [herr, herr, pow_succ]
    have h0 : (0:ℚ) ≤ |pos - target| * (9/10) ^ k := by positivity
    nlinarith
  · show morphStep 10 ((morphStep 10)^[0] 0) = 1
    norm_num [morphStep]
  · show morphStep 10 ((morphStep 10)^[1] 0) = 19/10
    simp only [Function.iterate_one]
    norm_num [morphStep]

/-- C10: one relaxation tick lands inclusively between the previous live value
and the target, moves the live value by exactly one tenth of the remaining
difference, and never increases the per-axis distance to the target. -/
theorem morph_step_between :
    ∀ target pos : ℚ,
      min pos target ≤ morphStep target pos ∧
      morphStep target pos ≤ max pos target ∧
      morphStep target pos - pos = (target - pos) * (1/10) ∧
      |morphStep target pos - target| ≤ |pos - target| := by
  intro target pos
  rcases le_total pos target with h | h
  · refine ⟨?_, ?_, by simp only [morphStep]; ring, ?_⟩
    · rw [min_eq_left h]; simp only [morphStep]; nlinarith
    · rw [max_eq_right h]; simp only [morphStep]; nlinarith
    · have h1 : morphStep target pos - target = (pos - target) * (9/10) := by
        simp only [morphStep]; ring
      rw [h1, abs_mul]
      have : |pos - target| * |(9:ℚ)/10| = |pos - target| * (9/10) := by norm_num
      rw [this]
      nlinarith [abs_nonneg (pos - target)]
  · refine ⟨?_, ?_, by simp only [morphStep]; ring, ?_⟩
    · rw [min_eq_right h]; simp only [morphStep]; nlinarith
    · rw [max_eq_left h]; simp only [morphStep]; nlinarith
    · have h1 : morphStep target pos - target = (pos - target) * (9/10) := by
        simp only [morphStep]; ring
      rw [h1, abs_mul]
      have : |pos - target| * |(9:ℚ)/10| = |pos - target| * (9/10) := by norm_num
      rw [this]
      nlinarith [abs_nonneg (pos - target)]

end MorphTheorems

section BlendTheorems

/-- A clamp to `[0,1]` is at least 0. -/
theorem clamp01_nonneg (v : ℚ) : 0 ≤ clamp v 0 1 := le_max_left 0 _

/-- A clamp to `[0,1]` is at most 1. -/
theorem clamp01_le_one (v : ℚ) : clamp v 0 1 ≤ 1 :=
  max_le (by norm_num) (min_le_left 1 v)

/-- C1 (amended): in the `part_000` schedule every per-coordinate target is a
convex combination of the two endpoint shape buffers of the segment containing
`p` — the local factor is clamped to `[0,1]` in every segment, so the target
never extrapolates past either endpoint for any progress value. -/
theorem blend_convex_part000 :
    ∀ cloud model cube p : ℚ, ∃ a b t : ℚ,
      0 ≤ t ∧ t ≤ 1 ∧
      ((a = cloud ∧ b = model) ∨ (a = model ∧ b = cube) ∨ (a = cube ∧ b = cube)) ∧
      targetPos0 cloud model cube p = lerp a b t := by
  intro cloud model cube p
  by_cases h1 : p ≤ 33/100
  · exact ⟨cloud, model, clamp (p * 3) 0 1, clamp01_nonneg _, clamp01_le_one _,
      Or.inl ⟨rfl, rfl⟩, by simp [targetPos0, h1]⟩
  · by_cases h2 : p ≤ 66/100
    · exact ⟨model, cube, clamp ((p - 33/100) * 3) 0 1, clamp01_nonneg _,
        clamp01_le_one _, Or.inr (Or.inl ⟨rfl, rfl⟩), by simp [targetPos0, h1, h2]⟩
    · refine ⟨cube, cube, 0, le_refl 0, by norm_num, Or.inr (Or.inr ⟨rfl, rfl⟩), ?_⟩
      simp only [targetPos0, h1, h2, if_false, lerp]
      ring

/-- Counterexample to C1: in the `App.js` schedule at progress `p = 0.1`, on a
coordinate where the cloud and model buffers hold 0 and the cube buffer holds
1, the segment containing `p` is model→cube with unclamped local factor
`(0.1 - 0.25) * 5 = -3/4`; the computed target is `-3/4`, strictly below every
shape buffer, so it is not a convex combination of any two of them (any such
combination is nonnegative here). -/
theorem blend_extrapolates_appjs :
    targetApp 0 0 1 (1/10) = -3/4 ∧ ¬ (0 ≤ targetApp 0 0 1 (1/10)) := by
  constructor
  · norm_num [targetApp, lerp]
  · norm_num [targetApp, lerp]

end BlendTheorems

section ZoneMonotone

/-- C5: both zone classifiers are total pure functions of progress and are
monotone with respect to the configured zone ordering: increasing progress
never moves the zone backward, in the three-zone and the four-zone variant
alike (and there is no hysteresis — the same function serves both scroll
directions). -/
theorem zone_monotone (p1 p2 : ℚ) (h : p1 < p2) :
    (newZone3 p1).idx ≤ (newZone3 p2).idx ∧
    (newZone4 p1).idx ≤ (newZone4 p2).idx := by
  constructor
  · simp only [newZone3]
    split_ifs with h1 h2 h3 h4 h5 h6 <;>
      simp_all [Zone.idx] <;> first | omega | linarith
  · simp only [newZone4]
    split_ifs <;> simp_all [Zone.idx] <;> first | omega | linarith

/-- Witness for C5: monotonicity applied to the concrete pair 0 < 1. -/
theorem zone_monotone_witness :
    (newZone3 0).idx ≤ (newZone3 1).idx ∧ (newZone4 0).idx ≤ (newZone4 1).idx :=
  zone_monotone 0 1 (by norm_num)

end ZoneMonotone

/-- Drag-release handler of `part_000` (`handleMouseUp`, lines 200-229): the
pixel delta `(dx, dy)` over a viewport `(w, h)` is normalized, scaled by
`clickForce`, added to the velocity, and then each component is clamped to
`[-maxVelocity, maxVelocity]`. -/
def handleMouseUp (v : Vec2) (dx dy w h : ℚ) : Vec2 :=
  let forceY := dx / w * clickForce
  let forceX := dy / h * clickForce
  { x := clamp (v.x + forceX) (-maxVelocity) maxVelocity
    y := clamp (v.y + forceY) (-maxVelocity) maxVelocity }

/-- Drag-release handler of `App.js` (`ClickHandler`, lines 189-192): the same
normalized, click-force-scaled delta is added, with no clamping step. -/
def clickHandlerUp (v : Vec2) (dx dy w h : ℚ) : Vec2 :=
  { x := v.x + dy / h * clickForce
    y := v.y + dx / w * clickForce }

/-- Per-frame friction decay (both variants): each velocity component is
multiplied by `friction`. -/
def frictionTick (v : Vec2) : Vec2 :=
  { x := v.x * friction, y := v.y * friction }

/-- An event acting on the rotation-velocity state: a drag impulse (through
the clamping `handleMouseUp` of `part_000`) or one friction tick. -/
inductive RotEvent where
  | impulse (dx dy w h : ℚ)
  | tick

/-- Run a sequence of rotation events from a starting velocity. -/
def runEvents (v : Vec2) : List RotEvent → Vec2
  | [] => v
  | RotEvent.impulse dx dy w h :: es => runEvents (handleMouseUp v dx dy w h) es
  | RotEvent.tick :: es => runEvents (frictionTick v) es

section RotationTheorems

/-- A symmetric clamp bounds the absolute value. -/
theorem abs_clamp_le (v m : ℚ) (hm : 0 ≤ m) : |clamp v (-m) m| ≤ m := by
  rw [abs_le]
  constructor
  · exact le_max_left (-m) _
  · exact max_le (by linarith) (min_le_left m v)

/-- The componentwise bound is preserved by every event of `part_000`. -/
theorem runEvents_bound (es : List RotEvent) :
    ∀ v : Vec2, |v.x| ≤ maxVelocity → |v.y| ≤ maxVelocity →
      |(runEvents v es).x| ≤ maxVelocity ∧ |(runEvents v es).y| ≤ maxVelocity := by
  induction es with
  | nil => exact fun v hx hy => ⟨hx, hy⟩
  | cons e es ih =>
      intro v hx hy
      cases e with
      | impulse dx dy w h =>
          exact ih _ (abs_clamp_le _ _ (by norm_num [maxVelocity]))
            (abs_clamp_le _ _ (by norm_num [maxVelocity]))
      | tick =>
          have hb : ∀ c : ℚ, |c| ≤ maxVelocity → |c * friction| ≤ maxVelocity := by
            intro c hc
            rw [abs_mul]
            have h1 : |friction| = 98/100 := by norm_num [friction]
            rw [h1]
            nlinarith [abs_nonneg c]
          exact ih _ (hb _ hx) (hb _ hy)

/-- Friction ticks in closed form: after `k` ticks each component is the
original times `friction ^ k`. -/
theorem frictionTick_iterate (v : Vec2) (k : ℕ) :
    frictionTick^[k] v = ⟨v.x * friction ^ k, v.y * friction ^ k⟩ := by
  induction k with
  | zero => simp
  | succ n ih =>
      rw [Function.iterate_succ_apply', ih]
      simp only [frictionTick]
      rw [pow_succ]
      exact congrArg₂ Vec2.mk (by ring) (by ring)

/-- C2 (amended): starting from rest, after any interleaving of clamped drag
impulses (`part_000`'s `handleMouseUp`) and friction ticks, both velocity
components stay within `maxVelocity` in absolute value; `k` friction ticks
multiply each component by `friction ^ k` exactly, so with no further impulses
a nonzero component decays geometrically (strictly, factor 0.98 per tick) and
never algebraically reaches zero.  The `App.js` drag handler omits the clamp,
so the bound does not hold for it (see the counterexample). -/
theorem rotation_clamp_decay :
    (∀ es : List RotEvent,
      |(runEvents ⟨0, 0⟩ es).x| ≤ maxVelocity ∧
      |(runEvents ⟨0, 0⟩ es).y| ≤ maxVelocity) ∧
    (∀ v : Vec2, ∀ k : ℕ,
      frictionTick^[k] v = ⟨v.x * friction ^ k, v.y * friction ^ k⟩) ∧
    (∀ c : ℚ, c ≠ 0 → ∀ k : ℕ,
      c * friction ^ k ≠ 0 ∧ |c * friction ^ (k + 1)| < |c * friction ^ k|) := by
  refine ⟨?_, frictionTick_iterate, ?_⟩
  · intro es
    exact runEvents_bound es ⟨0, 0⟩ (by norm_num [maxVelocity]) (by norm_num [maxVelocity])
  · intro c hc k
    have hf : (0:ℚ) < friction := by norm_num [friction]
    constructor
    · exact mul_ne_zero hc (pow_ne_zero k (by norm_num [friction]))
    · rw [abs_mul, abs_mul, abs_pow, abs_pow]
      have h1 : |friction| = friction := abs_of_pos hf
      rw [h1]
      have h2 : (0:ℚ) < |c| := abs_pos.mpr hc
      have h3 : friction ^ (k + 1) < friction ^ k := by
        rw [pow_succ]
        have hk := pow_pos hf k
        have hlt : friction < 1 := by norm_num [friction]
        calc friction ^ k * friction < friction ^ k * 1 :=
              mul_lt_mul_of_pos_left hlt hk
          _ = friction ^ k := mul_one _
      exact mul_lt_mul_of_pos_left h3 h2

/-- Witness for C2: the bound after one impulse and one tick, and strict decay
of the concrete nonzero component 2 after one tick. -/
theorem rotation_clamp_decay_witness :
    (|(runEvents ⟨0, 0⟩ [RotEvent.impulse 1 0 1 1, RotEvent.tick]).y| ≤ maxVelocity) ∧
    ((2:ℚ) * friction ^ 1 ≠ 0 ∧ |(2:ℚ) * friction ^ 2| < |2 * friction ^ 1|) :=
  ⟨(rotation_clamp_decay.1 [RotEvent.impulse 1 0 1 1, RotEvent.tick]).2,
   rotation_clamp_decay.2.2 2 (by norm_num) 1⟩

/-- Counterexample to C2: with the `App.js` handler (no clamp), four successive
full-width drags from rest drive `velocity.y` to `0.2`, which exceeds
`maxVelocity = 0.15`. -/
theorem rotation_clamp_fails_appjs :
    (clickHandlerUp (clickHandlerUp (clickHandlerUp
      (clickHandlerUp ⟨0, 0⟩ 1 0 1 1) 1 0 1 1) 1 0 1 1) 1 0 1 1).y = 2/10 ∧
    ¬ ((2:ℚ)/10 ≤ maxVelocity) := by
  constructor
  · norm_num [clickHandlerUp, clickForce]
  · norm_num [maxVelocity]

/-- C7: a drag-release with pixel deltas `(dx, dy)` over a viewport `(w, h)`
adds exactly `(dx/w)*clickForce` to the Y velocity component and
`(dy/h)*clickForce` to the X component — horizontal drag drives Y rotation and
vertical drag drives X rotation, with a fixed sign convention.  `App.js`'s
handler is exactly this addition; `part_000`'s handler is the componentwise
clamp of exactly this addition (lines 200-217 before its clamping step). -/
theorem drag_impulse_mapping :
    ∀ (v : Vec2) (dx dy w h : ℚ),
      clickHandlerUp v dx dy w h =
        ⟨v.x + dy / h * clickForce, v.y + dx / w * clickForce⟩ ∧
      handleMouseUp v dx dy w h =
        ⟨clamp (v.x + dy / h * clickForce) (-maxVelocity) maxVelocity,
         clamp (v.y + dx / w * clickForce) (-maxVelocity) maxVelocity⟩ :=
  fun _ _ _ _ _ => ⟨rfl, rfl⟩

end RotationTheorems

/-- A 3-D point (one triple of the flat position buffers). -/
structure Vec3 where
  x : ℚ
  y : ℚ
  z : ℚ
deriving DecidableEq, Repr

/-- One model-shape draw (`part_000` lines 82-95, `App.js` lines 115-121):
pick `src[Math.floor(r * src.length)]` for a uniform draw `r ∈ [0,1)` and
apply the fixed transform `T` — scale by `MODEL_CONFIG.scale` followed by the
fixed Euler rotation offset (`applyEuler`); `T` abstracts that scale-then-
rotate map, which with the configured zero rotation angles reduces to pure
scaling. -/
def sampleOne (T : Vec3 → Vec3) (src : List Vec3) (r : ℚ) : Vec3 :=
  T (src.getD (⌊r * (src.length : ℚ)⌋).toNat ⟨0, 0, 0⟩)

/-- Model-shape sampler of `part_000` (lines 82-100): `u` is the stream of
`Math.random()` values consumed by the model-shape branch.  A non-empty source
takes one draw per output index; an empty source falls back to three fresh
uniform draws per output point. -/
def sampleModel (T : Vec3 → Vec3) (src : List Vec3) (u : ℕ → ℚ) (N : ℕ) :
    List Vec3 :=
  (List.range N).map fun i =>
    if 0 < src.length then sampleOne T src (u i)
    else ⟨u (3 * i), u (3 * i + 1), u (3 * i + 2)⟩

/-- Model-shape sampler of `App.js` (lines 115-121): identical draw for a
non-empty source, but no fallback branch — with an empty source the
zero-initialized `Float32Array` entries are left untouched, so every output
point is the zero vector. -/
def sampleModelApp (T : Vec3 → Vec3) (src : List Vec3) (u : ℕ → ℚ) (N : ℕ) :
    List Vec3 :=
  (List.range N).map fun i =>
    if 0 < src.length then sampleOne T src (u i)
    else ⟨0, 0, 0⟩

section SamplerTheorems

/-- With a draw in `[0,1)` and a non-empty source, one sampler draw is the
transform of some source point. -/
theorem sampleOne_mem (T : Vec3 → Vec3) (src : List Vec3) (r : ℚ)
    (hsrc : src ≠ []) (h0 : 0 ≤ r) (h1 : r < 1) :
    ∃ p ∈ src, sampleOne T src r = T p := by
  have hlen : 0 < src.length := List.length_pos.mpr hsrc
  have hlenQ : (0:ℚ) < (src.length : ℚ) := by exact_mod_cast hlen
  have hmul : r * (src.length : ℚ) < (src.length : ℚ) := by nlinarith
  have hfloor : ⌊r * (src.length : ℚ)⌋ < (src.length : ℤ) := by
    rw [Int.floor_lt]
    exact_mod_cast hmul
  have hidx : (⌊r * (src.length : ℚ)⌋).toNat < src.length := by omega
  refine ⟨src.get ⟨_, hidx⟩, List.get_mem _ _ hidx, ?_⟩
  simp only [sampleOne]
  rw [List.getD_eq_getElem _ _ hidx, List.get_eq_getElem]

/-- C6 (amended): for every target count, source sequence and random stream,
both samplers produce exactly `N` output points; with stream values in `[0,1)`
and a non-empty source every output point is `T p` for some source point `p`
(with `T` the fixed scale-then-rotate transform); with an empty source the
`part_000` sampler fills each output point with the next three uniform draws
(hence componentwise in `[0,1)` when the draws are), while the `App.js`
sampler leaves every output point at the zero vector.  Construction never
fails in either variant. -/
theorem shape_sampler_spec :
    (∀ (T : Vec3 → Vec3) (src : List Vec3) (u : ℕ → ℚ) (N : ℕ),
      (sampleModel T src u N).length = N ∧ (sampleModelApp T src u N).length = N) ∧
    (∀ (T : Vec3 → Vec3) (src : List Vec3) (u : ℕ → ℚ) (N : ℕ),
      (∀ n, 0 ≤ u n ∧ u n < 1) → src ≠ [] →
      (∀ v ∈ sampleModel T src u N, ∃ p ∈ src, v = T p) ∧
      (∀ v ∈ sampleModelApp T src u N, ∃ p ∈ src, v = T p)) ∧
    (∀ (T : Vec3 → Vec3) (u : ℕ → ℚ) (N : ℕ),
      sampleModel T [] u N =
        (List.range N).map fun i => ⟨u (3 * i), u (3 * i + 1), u (3 * i + 2)⟩) ∧
    (∀ (T : Vec3 → Vec3) (u : ℕ → ℚ) (N : ℕ),
      (∀ n, 0 ≤ u n ∧ u n < 1) →
      ∀ v ∈ sampleModel T [] u N,
        0 ≤ v.x ∧ v.x < 1 ∧ 0 ≤ v.y ∧ v.y < 1 ∧ 0 ≤ v.z ∧ v.z < 1) ∧
    (∀ (T : Vec3 → Vec3) (u : ℕ → ℚ) (N : ℕ),
      ∀ v ∈ sampleModelApp T [] u N, v = ⟨0, 0, 0⟩) := by
  refine ⟨?_, ?_, ?_, ?_, ?_⟩
  · intro T src u N
    constructor <;> simp [sampleModel, sampleModelApp]
  · intro T src u N hu hsrc
    have hlen : 0 < src.length := List.length_pos.mpr hsrc
    constructor
    · intro v hv
      simp only [sampleModel, List.mem_map, List.mem_range] at hv
      obtain ⟨i, _, hi⟩ := hv
      rw [if_pos hlen] at hi
      obtain ⟨p, hp, he⟩ := sampleOne_mem T src (u i) hsrc (hu i).1 (hu i).2
      exact ⟨p, hp, hi ▸ he⟩
    · intro v hv
      simp only [sampleModelApp, List.mem_map, List.mem_range] at hv
      obtain ⟨i, _, hi⟩ := hv
      rw [if_pos hlen] at hi
      obtain ⟨p, hp, he⟩ := sampleOne_mem T src (u i) hsrc (hu i).1 (hu i).2
      exact ⟨p, hp, hi ▸ he⟩
  · intro T u N
    simp [sampleModel]
  · intro T u N hu v hv
    simp only [sampleModel, List.length_nil, lt_irrefl, if_false, List.mem_map,
      List.mem_range] at hv
    obtain ⟨i, _, hi⟩ := hv
    subst hi
    exact ⟨(hu _).1, (hu _).2, (hu _).1, (hu _).2, (hu _).1, (hu _).2⟩
  · intro T u N v hv
    simp only [sampleModelApp, List.length_nil, lt_irrefl, if_false, List.mem_map,
      List.mem_range] at hv
    obtain ⟨i, _, hi⟩ := hv
    exact hi.symm

/-- Witness for C6: the non-empty-source clause applied to the singleton
source `[(1,0,0)]`, the constant stream 1/2 and N = 4 — the point the sampler
actually emits is the transform of a source point. -/
theorem shape_sampler_spec_witness :
    ∃ p ∈ [(⟨1, 0, 0⟩ : Vec3)], (⟨1, 0, 0⟩ : Vec3) = p :=
  ((shape_sampler_spec.2.1 (fun w => w) [⟨1, 0, 0⟩] (fun _ => 1/2) 4
      (fun n => by norm_num) (by simp)).1) ⟨1, 0, 0⟩ (by
    have hf : ⌊(2⁻¹ : ℚ)⌋ = 0 := by norm_num
    simp [sampleModel, sampleOne, List.range_succ, hf])

/-- Counterexample to C6: with an empty source the `App.js` sampler ignores
the random stream entirely — with every uniform draw equal to 1/2 the claim's
fallback would give the point `(1/2, 1/2, 1/2)`, but the output point is the
zero vector left in the buffer. -/
theorem sampler_fallback_zero_appjs :
    sampleModelApp (fun w => w) [] (fun _ => 1/2) 1 = [⟨0, 0, 0⟩] ∧
    (⟨0, 0, 0⟩ : Vec3) ≠ ⟨1/2, 1/2, 1/2⟩ := by
  constructor
  · simp [sampleModelApp, List.range_succ]
  · intro h
    injection h with hx
    norm_num at hx

end SamplerTheorems

/-- `CURSOR_CONFIG.outerRingSpeed` (both variants define 0.05). -/
def outerRingSpeed : ℚ := 5/100

/-- `CURSOR_CONFIG.innerDotSpeed` (both variants define 0.08). -/
def innerDotSpeed : ℚ := 8/100

/-- `CURSOR_CONFIG.rotationSpeed`. -/
def rotationSpeed : ℚ := 1/100

/-- The cursor follower's owned state: ring position, dot position, ring
rotation angle. -/
structure CursorState where
  ringX : ℚ
  ringY : ℚ
  dotX : ℚ
  dotY : ℚ
  ringRot : ℚ
deriving DecidableEq, Repr

/-- Shared world-space pointer target (`part_000` lines 269-277, `App.js`
lines 215-220): `dist = camera.z - 4.5`, `viewportHeight = 2*tan(vFov/2)*dist`,
`viewportWidth = viewportHeight*aspect`, target `(nx*vw/2, ny*vh/2)`.  The
transcendental `Math.tan(vFov/2)` is supplied as the input `tanHalfVFov`. -/
def cursorTarget (nx ny camZ tanHalfVFov aspect : ℚ) : ℚ × ℚ :=
  let dist := camZ - 9/2
  let viewportHeight := 2 * tanHalfVFov * dist
  let viewportWidth := viewportHeight * aspect
  (nx * (viewportWidth / 2), ny * (viewportHeight / 2))

/-- One cursor frame of `part_000` (lines 266-305): ring and dot each lerp
toward the shared target at the configured rates, and the ring accumulates a
constant spin. -/
def cursorFrame (s : CursorState) (nx ny camZ tanHalfVFov aspect : ℚ) :
    CursorState :=
  let t := cursorTarget nx ny camZ tanHalfVFov aspect
  { ringX := lerp s.ringX t.1 outerRingSpeed
    ringY := lerp s.ringY t.2 outerRingSpeed
    dotX := lerp s.dotX t.1 innerDotSpeed
    dotY := lerp s.dotY t.2 innerDotSpeed
    ringRot := s.ringRot + rotationSpeed }

/-- One cursor frame of `App.js` (lines 213-223): the lerp factors are the
literals 0.05 (ring) and 0.1 (dot) — the `CURSOR_CONFIG` rates are unused —
and there is no ring spin. -/
def cursorFrameApp (s : CursorState) (nx ny camZ tanHalfVFov aspect : ℚ) :
    CursorState :=
  let t := cursorTarget nx ny camZ tanHalfVFov aspect
  { ringX := lerp s.ringX t.1 (5/100)
    ringY := lerp s.ringY t.2 (5/100)
    dotX := lerp s.dotX t.1 (1/10)
    dotY := lerp s.dotY t.2 (1/10)
    ringRot := s.ringRot }

section CursorTheorems

/-- C8 (amended): each tick both variants compute the shared world-space
target `(nx*viewportWidth/2, ny*viewportHeight/2)` with
`viewportHeight = 2*tan(fov/2)*distance` and
`viewportWidth = viewportHeight*aspect`, and relax the ring and the dot
toward that same target by the exponential-smoothing lerp; the dot's rate is
strictly greater than the ring's in both variants, but the rates are 0.08 vs
0.05 only in `part_000` — `App.js` hardcodes 0.1 for the dot. -/
theorem cursor_follower_spec :
    (∀ (nx ny camZ th aspect : ℚ),
      cursorTarget nx ny camZ th aspect =
        (nx * (2 * th * (camZ - 9/2) * aspect / 2),
         ny * (2 * th * (camZ - 9/2) / 2))) ∧
    (∀ (s : CursorState) (nx ny camZ th aspect : ℚ),
      cursorFrame s nx ny camZ th aspect =
        { ringX := lerp s.ringX (cursorTarget nx ny camZ th aspect).1 outerRingSpeed
          ringY := lerp s.ringY (cursorTarget nx ny camZ th aspect).2 outerRingSpeed
          dotX := lerp s.dotX (cursorTarget nx ny camZ th aspect).1 innerDotSpeed
          dotY := lerp s.dotY (cursorTarget nx ny camZ th aspect).2 innerDotSpeed
          ringRot := s.ringRot + rotationSpeed }) ∧
    (∀ (s : CursorState) (nx ny camZ th aspect : ℚ),
      cursorFrameApp s nx ny camZ th aspect =
        { ringX := lerp s.ringX (cursorTarget nx ny camZ th aspect).1 (5/100)
          ringY := lerp s.ringY (cursorTarget nx ny camZ th aspect).2 (5/100)
          dotX := lerp s.dotX (cursorTarget nx ny camZ th aspect).1 (1/10)
          dotY := lerp s.dotY (cursorTarget nx ny camZ th aspect).2 (1/10)
          ringRot := s.ringRot }) ∧
    outerRingSpeed < innerDotSpeed ∧ (5:ℚ)/100 < 1/10 := by
  refine ⟨fun nx ny camZ th aspect => rfl, fun s nx ny camZ th aspect => rfl,
    fun s nx ny camZ th aspect => rfl, ?_, by norm_num⟩
  norm_num [outerRingSpeed, innerDotSpeed]

/-- Counterexample to C8: the `App.js` dot does not move at the claimed rate
0.08.  From the origin with target x-coordinate 1/2, one `App.js` frame puts
the dot at 1/20 (rate 0.1), whereas a 0.08-rate lerp would put it at 1/25. -/
theorem cursor_dot_rate_appjs :
    (cursorFrameApp ⟨0, 0, 0, 0, 0⟩ 1 1 5 1 1).dotX = 1/20 ∧
    lerp 0 ((cursorTarget 1 1 5 1 1).1) innerDotSpeed = 1/25 ∧
    ((1:ℚ)/20 ≠ 1/25) := by
  refine ⟨?_, ?_, by norm_num⟩
  · norm_num [cursorFrameApp, cursorTarget, lerp]
  · norm_num [cursorTarget, lerp, innerDotSpeed]

end CursorTheorems

end MySite
